import Mathlib

/-!
Shallow embedding of the operations bot (`src/api/index.py`) in Lean 4.

Text is modelled as Lean `String` (a wrapper around `List Char`, matching
Python's view of `str` as a sequence of code points). Python float values
appearing in the decision record (`confidence`) are modelled as `Rat`.
External collaborators (the Notion store, the Twilio transport, the model
call) are modelled as oracles: their results are inputs to the embedded
handler, and the handler records the store-mutating calls it makes as an
event list. A Python `None` is `Option.none`; a JSON field that may be
absent as well as null is `Option (Option _)` (`none` = key absent,
`some none` = key present with value null).
-/

/-- The ASCII whitespace characters Python's `str.strip()` removes. -/
def pyIsSpace (c : Char) : Bool :=
  c == ' ' || c == '\t' || c == '\n' || c == '\r' || c == '\x0b' || c == '\x0c'

/-- Python `str.strip()` on a list of code points: drop whitespace from both
ends. -/
def pyStripChars (l : List Char) : List Char :=
  ((l.dropWhile pyIsSpace).reverse.dropWhile pyIsSpace).reverse

/-- Python `s.strip()` on a string. -/
def pyStrip (s : String) : String := ⟨pyStripChars s.data⟩

/-- Python slice `s[:n]` on a string: the first `n` code points. -/
def pySlice (n : Nat) (s : String) : String := ⟨s.data.take n⟩

/-- Python truthiness of an optional string (`None` and `""` are falsy). -/
def pyTruthy : Option String → Bool
  | none => false
  | some s => s != ""

/-- Python `x or d` on an optional string: `d` when `x` is falsy. -/
def pyOrStr (x : Option String) (d : String) : String :=
  match x with
  | none => d
  | some s => if s = "" then d else s

/-- Python `float(x or 0.0)` applied to the optional numeric `confidence`
field (`None` and `0.0` are falsy, so both give `0.0`). -/
def pyConfidence : Option Rat → Rat
  | none => 0
  | some v => if v = 0 then 0 else v

/-- One row of the Notion team database, as returned by
`notion_find_member_by_phone`. -/
structure Member where
  id : String
  name : String
deriving DecidableEq, Repr

/-- One task record as normalised by `notion_get_tasks_for_member_week`. -/
structure TaskRec where
  id : String
  title : String
  status : Option String
  progress : Option Int
  due : Option String
deriving DecidableEq, Repr

/-- The stored mutable fields of one Notion task page, as touched by
`notion_update_task` and `notion_append_log`. -/
structure StoredTask where
  status : Option String
  progress : Option Int
  blocker : Option String
  needsAttention : Option Bool
  lastUpdate : Option String
  updateLog : String
deriving DecidableEq, Repr

/-- `notion_update_task(task_id, status, progress, blocker, needs_attention)`:
builds a partial `properties` update. The timestamp is always stamped;
`Status` is written only when `status` is truthy (`if status:`); the other
three fields are written when not `None` (`is not None`); `blocker` is
sliced to its first 1800 code points. `now` stands for
`dt.datetime.utcnow().isoformat()`. -/
def notion_update_task (now : String) (t : StoredTask) (status : Option String)
    (progress : Option Int) (blocker : Option String)
    (needs_attention : Option Bool) : StoredTask :=
  { t with
    lastUpdate := some now
    status := if pyTruthy status then status else t.status
    progress := match progress with
      | none => t.progress
      | some p => some p
    blocker := match blocker with
      | none => t.blocker
      | some b => some (pySlice 1800 b)
    needsAttention := match needs_attention with
      | none => t.needsAttention
      | some b => some b }

/-- The text that `notion_append_log(task_id, line)` writes back:
`next_text = (current + "\n" + line).strip()` stored as `next_text[:1800]`. -/
def notion_append_log_text (current line : String) : String :=
  pySlice 1800 (pyStrip (current ++ "\n" ++ line))

/-- `notion_append_log` as a store update on one task page. -/
def notion_append_log (t : StoredTask) (line : String) : StoredTask :=
  { t with updateLog := notion_append_log_text t.updateLog line }

/-- The raw JSON record parsed from the model output in `ai_parse_update`,
before the `setdefault` sanitisation. `none` = key absent,
`some none` = key present but null. -/
structure RawParsed where
  task_id : Option (Option String) := none
  status : Option (Option String) := none
  progress : Option (Option Int) := none
  blocker : Option (Option String) := none
  needs_attention : Option (Option Bool) := none
  confidence : Option (Option Rat) := none
  followup : Option (Option String) := none
deriving DecidableEq, Repr

/-- The decision record after `ai_parse_update`'s `setdefault` calls. -/
structure Parsed where
  task_id : Option String
  status : Option String
  progress : Option Int
  blocker : Option String
  needs_attention : Option Bool
  confidence : Option Rat
  followup : Option String
deriving DecidableEq, Repr

/-- Python `data.setdefault(key, d)`: supplies `d` only when the key is
absent; an explicit null is kept. -/
def pySetdefault {α : Type} (v : Option (Option α)) (d : Option α) : Option α :=
  match v with
  | none => d
  | some x => x

/-- The `# Basic sanity` block of `ai_parse_update`: every field defaults to
null when absent, except `confidence`, which defaults to `0.0`. -/
def aiSanitize (r : RawParsed) : Parsed :=
  { task_id := pySetdefault r.task_id none
    status := pySetdefault r.status none
    progress := pySetdefault r.progress none
    blocker := pySetdefault r.blocker none
    needs_attention := pySetdefault r.needs_attention none
    confidence := pySetdefault r.confidence (some 0)
    followup := pySetdefault r.followup none }

/-- One candidate entry of the `task_list` summary built in
`ai_parse_update` (letter label plus the task's fields). -/
structure CandidateEntry where
  letter : Char
  id : String
  title : String
  status : Option String
  progress : Option Int
  due : Option String
deriving DecidableEq, Repr

/-- The `task_list` summary of `ai_parse_update`: entry `i` gets letter
`chr(65 + i)`. -/
def build_task_list (tasks : List TaskRec) : List CandidateEntry :=
  tasks.enum.map fun p =>
    { letter := Char.ofNat (65 + p.1)
      id := p.2.id
      title := p.2.title
      status := p.2.status
      progress := p.2.progress
      due := p.2.due }

/-- The optional due-date suffix of one digest line
(`f" (Due {t['due']})" if t.get("due") else ""`). -/
def due_suffix (due : Option String) : String :=
  match due with
  | none => ""
  | some d => if d = "" then "" else " (Due " ++ d ++ ")"

/-- One task line of `build_weekly_message`: `f"{letter}) {title}{due}"`
with `letter = chr(65 + i)`. -/
def digest_line (i : Nat) (t : TaskRec) : String :=
  String.mk [Char.ofNat (65 + i)] ++ ") " ++ t.title ++ due_suffix t.due

/-- The per-task lines of `build_weekly_message`, in list order. -/
def weekly_task_lines (tasks : List TaskRec) : List String :=
  tasks.enum.map fun p => digest_line p.1 p.2

/-- `build_weekly_message(week, tasks)`: preamble, one line per task,
fixed usage-hint lines, joined with newlines. -/
def build_weekly_message (week : String) (tasks : List TaskRec) : String :=
  String.intercalate "\n"
    ((("Your tasks for " ++ week ++ ":") :: weekly_task_lines tasks) ++
      ["", "Reply like:", "A done", "B 60%", "C blocked waiting on X",
       "Or just type normally, I’ll parse it."])

/-- A store-mutating Notion call made by the inbound handler: a partial
field update (`notion_update_task`) or a log append (`notion_append_log`). -/
inductive NotionCall
  | update (taskId : String) (status : Option String) (progress : Option Int)
      (blocker : Option String) (needs_attention : Option Bool)
  | appendLog (taskId : String) (line : String)
deriving DecidableEq, Repr

/-- The oracle inputs to one run of `twilio_inbound`: the form's `Body`
field (`none` when absent), the result of the member lookup, the result of
the task query, the outcome of `ai_parse_update` (`Except.error ()` when
the model call or JSON parse raises), the current week key and the
UTC timestamp string. -/
structure InboundEnv where
  body : Option String
  member : Option Member
  tasks : List TaskRec
  ai : Except Unit RawParsed
  week : String
  nowIso : String
deriving Repr

/-- The observable outcome of one run of `twilio_inbound`: the TwiML reply
text (`none` when an uncaught exception escapes the handler, so no reply is
sent) and the ordered list of store-mutating Notion calls performed. -/
structure InboundResult where
  reply : Option String
  events : List NotionCall
deriving DecidableEq, Repr

/-- Fixed reply templates of `twilio_inbound`, verbatim from the source. -/
def usageReply : String :=
  "Send an update like: \x27done\x27, \x2760%\x27, or \x27blocked waiting on X\x27."

/-- Reply when the sender's number matches no team member. -/
def notRecognizedReply : String :=
  "I don’t recognize this number yet. Add it to the Team database in Notion under WhatsApp."

/-- Reply when the member has no tasks for the current week. -/
def noTasksReply (week : String) : String :=
  "No tasks found for you in " ++ week ++ ". Ask your manager to assign tasks in Notion."

/-- Default clarifying question when the model supplied no follow-up text. -/
def defaultClarifyReply : String :=
  "Which task is this for? Reply with A, B, C, or paste the task name."

/-- Defensive fallback reply when confidence is adequate but no task id was
produced. -/
def couldntMatchReply : String :=
  "I couldn’t match that to a task. Reply with A, B, C, or paste the task name."

/-- Reply after an applied update with status Done. -/
def doneReply : String := "Nice. Marked as Done and updated Notion."

/-- Reply after an applied update with status Blocked. -/
def blockedReply : String :=
  "Got it. Marked Blocked in Notion. What do you need to unblock?"

/-- Generic confirmation reply after an applied update. -/
def genericReply : String := "Got it. Updated Notion."

/-- The audit log line
`f"{dt.datetime.utcnow().isoformat()} | {member['name']}: {body}"`. -/
def audit_line (nowIso name body : String) : String :=
  nowIso ++ " | " ++ name ++ ": " ++ body

/-- The `twilio_inbound` route handler, from the source, with external
calls replaced by the oracle values in `env`. The guard structure follows
the Python line by line: empty stripped body → usage hint; unknown member →
not-recognized reply; empty task list → no-tasks reply; model failure →
the exception propagates (no reply, no calls); `confidence < 0.7 or
followup` → clarifying reply; falsy `task_id` → couldn't-match reply;
otherwise one field update then one log append, and a tone-dependent
confirmation. -/
def twilio_inbound (env : InboundEnv) : InboundResult :=
  let body := pyStrip (env.body.getD "")
  if body = "" then
    { reply := some usageReply, events := [] }
  else
    match env.member with
    | none => { reply := some notRecognizedReply, events := [] }
    | some member =>
      if env.tasks.isEmpty then
        { reply := some (noTasksReply env.week), events := [] }
      else
        match env.ai with
        | Except.error _ => { reply := none, events := [] }
        | Except.ok raw =>
          let parsed := aiSanitize raw
          let confidence := pyConfidence parsed.confidence
          if confidence < mkRat 7 10 || pyTruthy parsed.followup then
            { reply := some (pyOrStr parsed.followup defaultClarifyReply)
              events := [] }
          else if ¬ pyTruthy parsed.task_id then
            { reply := some couldntMatchReply, events := [] }
          else
            let tid := parsed.task_id.getD ""
            { reply := some (if parsed.status = some "Done" then doneReply
                else if parsed.status = some "Blocked" then blockedReply
                else genericReply)
              events := [NotionCall.update tid parsed.status parsed.progress
                  parsed.blocker parsed.needs_attention,
                NotionCall.appendLog tid (audit_line env.nowIso member.name body)] }

/-- The outcome of the `send_weekly` job route. -/
inductive WeeklyResult
  | forbidden
  | memberNotFound
  | ok (preview : String) (count : Nat)
deriving DecidableEq, Repr

/-- The `send_weekly` route handler: rejects with 403 unless the
`x-bot-secret` header (absent → `""`) equals the `BOT_SECRET` environment
value (unset → `""`); then looks up the member and previews the weekly
message. -/
def send_weekly (headerSecret envSecret : Option String)
    (member : Option Member) (week : String) (tasks : List TaskRec) :
    WeeklyResult :=
  if headerSecret.getD "" ≠ envSecret.getD "" then
    WeeklyResult.forbidden
  else
    match member with
    | none => WeeklyResult.memberNotFound
    | some _ => WeeklyResult.ok (build_weekly_message week tasks) tasks.length

/-- Modelled from the spec's words: the label sequence "A, B, C, ..."
continued in list order, i.e. label `i` is code point `65 + i`. Declared for
comparison with the labels the code assigns. -/
def specLetterSeq (n : Nat) : List Char :=
  (List.range n).map fun i => Char.ofNat (65 + i)

/-- Claim C5: for every existing log text and every appended line, the text
that `notion_append_log` writes back to the store is at most 1800
characters long. -/
theorem notion_append_log_length_le (current line : String) :
    (notion_append_log_text current line).length ≤ 1800 := by
  show ((pyStrip (current ++ "\n" ++ line)).data.take 1800).length ≤ 1800
  simp [List.length_take]

/-- Helper: dropping leading whitespace changes nothing on a list that
starts with a non-whitespace character. -/
theorem dropWhile_pyIsSpace_cons_of_not (c : Char) (l : List Char)
    (h : pyIsSpace c = false) : (c :: l).dropWhile pyIsSpace = c :: l := by
  simp [List.dropWhile_cons, h]

/-- Helper: when the concatenated log text has no leading or trailing
whitespace, `notion_append_log` stores its first 1800 characters. -/
theorem append_log_text_no_outer_space (cur line : List Char)
    (hdrop : (cur ++ '\n' :: line).dropWhile pyIsSpace = cur ++ '\n' :: line)
    (hdropRev : ((cur ++ '\n' :: line).reverse).dropWhile pyIsSpace =
      (cur ++ '\n' :: line).reverse) :
    notion_append_log_text (String.mk cur) (String.mk line) =
      String.mk ((cur ++ '\n' :: line).take 1800) := by
  show String.mk ((pyStripChars ((String.mk cur ++ "\n" ++ String.mk line).data)).take 1800) =
    String.mk ((cur ++ '\n' :: line).take 1800)
  have hdata : (String.mk cur ++ "\n" ++ String.mk line).data = cur ++ '\n' :: line := by
    show (cur ++ '\n' :: ([] : List Char)) ++ line = cur ++ '\n' :: line
    simp only [List.append_assoc, List.cons_append, List.nil_append]
  rw [hdata]
  unfold pyStripChars
  rw [hdrop, hdropRev, List.reverse_reverse]

/-- Claim C4 evaluation: with a full 1800-character log, `notion_append_log`
keeps the first 1800 characters of the concatenation, so the stored text is
unchanged and the newly appended line ("new") is lost entirely — the
opposite of the required truncate-from-front direction. -/
theorem append_log_drops_newest :
    notion_append_log_text (String.mk (List.replicate 1800 'a')) (String.mk ['n', 'e', 'w']) =
      String.mk (List.replicate 1800 'a') ∧
    'n' ∉ (notion_append_log_text (String.mk (List.replicate 1800 'a'))
      (String.mk ['n', 'e', 'w'])).data := by
  have hsucc : List.replicate 1800 'a' = 'a' :: List.replicate 1799 'a' := by
    rw [show (1800 : Nat) = 1799 + 1 from rfl, List.replicate_succ]
  have hdrop : (List.replicate 1800 'a' ++ '\n' :: ['n', 'e', 'w']).dropWhile pyIsSpace =
      List.replicate 1800 'a' ++ '\n' :: ['n', 'e', 'w'] := by
    rw [hsucc, List.cons_append]
    exact dropWhile_pyIsSpace_cons_of_not _ _ (by decide)
  have hrev : (List.replicate 1800 'a' ++ '\n' :: ['n', 'e', 'w']).reverse =
      'w' :: 'e' :: 'n' :: '\n' :: (List.replicate 1800 'a').reverse := by
    rw [List.reverse_append]
    simp only [List.reverse_cons, List.reverse_nil, List.nil_append, List.append_assoc,
      List.cons_append]
  have hdropRev : ((List.replicate 1800 'a' ++ '\n' :: ['n', 'e', 'w']).reverse).dropWhile
      pyIsSpace = (List.replicate 1800 'a' ++ '\n' :: ['n', 'e', 'w']).reverse := by
    rw [hrev]
    exact dropWhile_pyIsSpace_cons_of_not _ _ (by decide)
  have hlen : (List.replicate 1800 'a').length = 1800 := List.length_replicate 1800 'a'
  have h1800 : (1800 : Nat) = (List.replicate 1800 'a').length + 0 := by rw [hlen]
  have htake : (List.replicate 1800 'a' ++ '\n' :: ['n', 'e', 'w']).take 1800 =
      List.replicate 1800 'a' := by
    nth_rewrite 1 [h1800]
    rw [List.take_append, List.take_zero, List.append_nil]
  have hmain := append_log_text_no_outer_space (List.replicate 1800 'a') ['n', 'e', 'w']
    hdrop hdropRev
  rw [htake] at hmain
  refine ⟨hmain, ?_⟩
  have hd2 : (notion_append_log_text (String.mk (List.replicate 1800 'a'))
      (String.mk ['n', 'e', 'w'])).data = List.replicate 1800 'a' := by
    rw [hmain]
  rw [hd2]
  rw [List.mem_replicate]
  exact fun h => absurd h.2 (by decide)

/-- Claim C6: `notion_update_task` always stamps the last-update timestamp,
leaves every absent optional field's stored value untouched (including the
update log, which it never writes), and stores any provided blocker text
truncated to its first 1800 characters. -/
theorem notion_update_task_frame (now : String) (t : StoredTask)
    (st : Option String) (pr : Option Int) (bl : Option String)
    (na : Option Bool) :
    (notion_update_task now t st pr bl na).lastUpdate = some now ∧
    (notion_update_task now t st pr bl na).updateLog = t.updateLog ∧
    (st = none → (notion_update_task now t st pr bl na).status = t.status) ∧
    (pr = none → (notion_update_task now t st pr bl na).progress = t.progress) ∧
    (bl = none → (notion_update_task now t st pr bl na).blocker = t.blocker) ∧
    (na = none →
      (notion_update_task now t st pr bl na).needsAttention = t.needsAttention) ∧
    (∀ b, bl = some b →
      (notion_update_task now t st pr bl na).blocker = some (pySlice 1800 b) ∧
      (pySlice 1800 b).length ≤ 1800) := by
  refine ⟨rfl, rfl, ?_, ?_, ?_, ?_, ?_⟩
  · rintro rfl; rfl
  · rintro rfl; rfl
  · rintro rfl; rfl
  · rintro rfl; rfl
  · rintro b rfl
    refine ⟨rfl, ?_⟩
    show (b.data.take 1800).length ≤ 1800
    simp [List.length_take]

/-- Claim C6 witness: concrete all-absent and provided-blocker calls. -/
theorem notion_update_task_frame_witness :
    (notion_update_task "2025-01-02T03:04:05" ⟨some "Open", some 10, none, some false, none, "log"⟩
        none none none none).status = some "Open" ∧
    (notion_update_task "2025-01-02T03:04:05" ⟨some "Open", some 10, none, some false, none, "log"⟩
        none none (some (String.mk (List.replicate 2000 'b'))) none).blocker =
      some (pySlice 1800 (String.mk (List.replicate 2000 'b'))) := by
  constructor
  · exact (notion_update_task_frame "2025-01-02T03:04:05"
      ⟨some "Open", some 10, none, some false, none, "log"⟩
      none none none none).2.2.1 rfl
  · exact ((notion_update_task_frame "2025-01-02T03:04:05"
      ⟨some "Open", some 10, none, some false, none, "log"⟩
      none none (some (String.mk (List.replicate 2000 'b'))) none).2.2.2.2.2.2
      (String.mk (List.replicate 2000 'b')) rfl).1

/-- Claim C9: calling `notion_update_task` with status equal to the empty
string leaves the stored Status untouched (same as an absent status) while
the timestamp is still stamped; progress `0` and needs-attention `false`,
being non-`None`, are written. -/
theorem notion_update_task_empty_status (now : String) (t : StoredTask) :
    (notion_update_task now t (some "") (some 0) none (some false)).status = t.status ∧
    (notion_update_task now t (some "") (some 0) none (some false)).lastUpdate = some now ∧
    (notion_update_task now t (some "") (some 0) none (some false)).progress = some 0 ∧
    (notion_update_task now t (some "") (some 0) none (some false)).needsAttention = some false := by
  refine ⟨?_, rfl, rfl, rfl⟩
  simp [notion_update_task, pyTruthy]

/-- Helper: for `n ≤ 50` the label sequence is a prefix of the 50-label
sequence. -/
theorem specLetterSeq_take (n : Nat) (hn : n ≤ 50) :
    specLetterSeq n = (specLetterSeq 50).take n := by
  unfold specLetterSeq
  rw [← List.map_take, List.take_range, Nat.min_eq_left hn]

/-- Helper: the first 50 labels are pairwise distinct. -/
theorem specLetterSeq_nodup (n : Nat) (hn : n ≤ 50) : (specLetterSeq n).Nodup := by
  rw [specLetterSeq_take n hn]
  exact List.Nodup.sublist (List.take_sublist _ _) (by decide)

/-- Helper: each weekly digest task line starts with its letter label. -/
theorem digest_line_head (i : Nat) (t : TaskRec) :
    (digest_line i t).data.head? = some (Char.ofNat (65 + i)) := rfl

/-- Claim C8: for every candidate task list of length at most 50, the labels
assigned to candidates — in the interpreter's candidate summary and at the
head of each weekly digest task line — are the characters A, B, C, …
(code points 65, 66, …) in list order, and they are unique within the
list. -/
theorem letter_labels (tasks : List TaskRec) (hn : tasks.length ≤ 50) :
    (build_task_list tasks).map CandidateEntry.letter = specLetterSeq tasks.length ∧
    ((build_task_list tasks).map CandidateEntry.letter).Nodup ∧
    ∀ i, i < tasks.length → ∃ line, (weekly_task_lines tasks).get? i = some line ∧
      line.data.head? = some (Char.ofNat (65 + i)) := by
  have h1 : (build_task_list tasks).map CandidateEntry.letter =
      tasks.enum.map (fun p => Char.ofNat (65 + p.1)) := by
    unfold build_task_list
    rw [List.map_map]
    rfl
  have h2 : tasks.enum.map (fun p => Char.ofNat (65 + p.1)) = specLetterSeq tasks.length := by
    unfold specLetterSeq
    rw [show (fun p : Nat × TaskRec => Char.ofNat (65 + p.1)) =
      ((fun i => Char.ofNat (65 + i)) ∘ Prod.fst) from rfl]
    rw [← List.map_map, List.enum_map_fst]
  refine ⟨h1.trans h2, ?_, ?_⟩
  · rw [h1.trans h2]
    exact specLetterSeq_nodup tasks.length hn
  · intro i hi
    refine ⟨digest_line i (tasks.get ⟨i, hi⟩), ?_, digest_line_head i _⟩
    unfold weekly_task_lines
    rw [List.get?_map, List.get?_enum, List.get?_eq_get hi]
    rfl

/-- Claim C8 witness: a concrete two-task list gets distinct labels A and B,
and the second digest line starts with B. -/
theorem letter_labels_witness :
    ((build_task_list
      [{ id := "t1", title := "Alpha", status := none, progress := none, due := none },
       { id := "t2", title := "Beta", status := none, progress := none,
         due := some "2025-01-03" }]).map CandidateEntry.letter).Nodup ∧
    ∃ line, (weekly_task_lines
      [{ id := "t1", title := "Alpha", status := none, progress := none, due := none },
       { id := "t2", title := "Beta", status := none, progress := none,
         due := some "2025-01-03" }]).get? 1 = some line ∧
      line.data.head? = some (Char.ofNat (65 + 1)) :=
  ⟨(letter_labels _ (by decide)).2.1, (letter_labels _ (by decide)).2.2 1 (by decide)⟩

/-- Claim C10: the weekly-trigger endpoint rejects with 403 exactly when the
shared-secret header (absent treated as `""`) differs from the configured
secret (unset treated as `""`); with an unconfigured secret, a missing or
empty header is accepted. -/
theorem send_weekly_secret_gate (hs es : Option String) (member : Option Member)
    (week : String) (tasks : List TaskRec) :
    (send_weekly hs es member week tasks = WeeklyResult.forbidden ↔
      hs.getD "" ≠ es.getD "") ∧
    (es = none → hs = none ∨ hs = some "" →
      send_weekly hs es member week tasks ≠ WeeklyResult.forbidden) := by
  by_cases h : hs.getD "" = es.getD ""
  · have hres : send_weekly hs es member week tasks ≠ WeeklyResult.forbidden := by
      unfold send_weekly
      rw [if_neg (fun hc => hc h)]
      cases member
      · exact fun hc => nomatch hc
      · exact fun hc => nomatch hc
    exact ⟨⟨fun hf => absurd hf hres, fun hne => absurd h hne⟩, fun _ _ => hres⟩
  · have hres : send_weekly hs es member week tasks = WeeklyResult.forbidden := by
      unfold send_weekly
      rw [if_pos h]
    refine ⟨⟨fun _ => h, fun _ => hres⟩, ?_⟩
    intro he hcase
    exfalso
    apply h
    subst he
    rcases hcase with h1 | h1 <;> subst h1 <;> rfl

/-- Claim C10 witness: with an unconfigured secret and a missing header the
request is accepted. -/
theorem send_weekly_secret_gate_witness :
    send_weekly none none none "2025-W01" [] ≠ WeeklyResult.forbidden :=
  (send_weekly_secret_gate none none none "2025-W01" []).2 rfl (Or.inl rfl)

/-- Claim C7 (amended): the confidence the orchestrator uses defaults to 0.0
when the scoring record's confidence is absent or null; otherwise it is the
record's raw value unmodified (in particular it is not clamped to [0,1]). -/
theorem confidence_default_passthrough (r : RawParsed) :
    (r.confidence = none → pyConfidence (aiSanitize r).confidence = 0) ∧
    (r.confidence = some none → pyConfidence (aiSanitize r).confidence = 0) ∧
    (∀ v, r.confidence = some (some v) →
      pyConfidence (aiSanitize r).confidence = v) := by
  refine ⟨?_, ?_, ?_⟩
  · intro h; simp [aiSanitize, pySetdefault, h, pyConfidence]
  · intro h; simp [aiSanitize, pySetdefault, h, pyConfidence]
  · intro v h
    by_cases hv : v = 0
    · simp [aiSanitize, pySetdefault, h, pyConfidence, hv]
    · simp [aiSanitize, pySetdefault, h, pyConfidence, hv]

/-- Claim C7 witness: absent and null confidence give 0; a supplied value
passes through. -/
theorem confidence_default_passthrough_witness :
    pyConfidence (aiSanitize {}).confidence = 0 ∧
    pyConfidence (aiSanitize { confidence := some none }).confidence = 0 ∧
    pyConfidence (aiSanitize { confidence := some (some (mkRat 1 2)) }).confidence =
      mkRat 1 2 :=
  ⟨(confidence_default_passthrough {}).1 rfl,
   (confidence_default_passthrough { confidence := some none }).2.1 rfl,
   (confidence_default_passthrough { confidence := some (some (mkRat 1 2)) }).2.2 _ rfl⟩

/-- Claim C7 counterexample: a model record with confidence 3/2 reaches the
orchestrator unclamped, so the value used is not in [0,1]. -/
theorem confidence_out_of_range_passthrough :
    pyConfidence (aiSanitize { confidence := some (some (mkRat 3 2)) }).confidence =
      mkRat 3 2 ∧
    ¬ (pyConfidence
        (aiSanitize { confidence := some (some (mkRat 3 2)) }).confidence ≤ 1) := by
  exact ⟨by decide, by decide⟩

/-- Claim C1 (amended): when the decision's confidence is at least 0.7,
its follow-up is absent or empty, and its selected task id is non-null and
non-empty, the handler reaches the applied state: it performs exactly one
field-mutation call then exactly one log-append call, both for the selected
task, and replies with a status-dependent confirmation. -/
theorem inbound_applied (b : Option String) (m : Member) (tasks : List TaskRec)
    (raw : RawParsed) (week now : String) (tid : String)
    (hbody : pyStrip (b.getD "") ≠ "")
    (htasks : tasks.isEmpty = false)
    (hconf : mkRat 7 10 ≤ pyConfidence (aiSanitize raw).confidence)
    (hfu : (aiSanitize raw).followup = none ∨ (aiSanitize raw).followup = some "")
    (htid : (aiSanitize raw).task_id = some tid)
    (htid2 : tid ≠ "") :
    twilio_inbound ⟨b, some m, tasks, Except.ok raw, week, now⟩ =
      { reply := some (if (aiSanitize raw).status = some "Done" then doneReply
          else if (aiSanitize raw).status = some "Blocked" then blockedReply
          else genericReply)
        events := [NotionCall.update tid (aiSanitize raw).status (aiSanitize raw).progress
            (aiSanitize raw).blocker (aiSanitize raw).needs_attention,
          NotionCall.appendLog tid (audit_line now m.name (pyStrip (b.getD "")))] } := by
  have hcond1 : (decide (pyConfidence (aiSanitize raw).confidence < mkRat 7 10) ||
      pyTruthy (aiSanitize raw).followup) = false := by
    rcases hfu with h | h
    · rw [h]; simp [pyTruthy, decide_eq_false (not_lt.mpr hconf)]
    · rw [h]; simp [pyTruthy, decide_eq_false (not_lt.mpr hconf)]
  have hcond2 : pyTruthy (aiSanitize raw).task_id = true := by
    rw [htid]; simp [pyTruthy, htid2]
  unfold twilio_inbound
  dsimp only
  rw [if_neg hbody, if_neg (by simp [htasks]), hcond1,
    if_neg Bool.false_ne_true, hcond2, if_neg (not_not_intro rfl), htid]
  rfl

/-- Claim C1 witness: a concrete high-confidence done-update performs the
field mutation and the log append and replies with the Done template. -/
theorem inbound_applied_witness :
    twilio_inbound ⟨some "A done", some ⟨"m1", "Alice"⟩,
      [⟨"t1", "Write report", some "In Progress", some 20, none⟩],
      Except.ok ⟨some (some "t1"), some (some "Done"), some (some 100), none, none,
        some (some 1), some none⟩, "2025-W01", "TS"⟩ =
      { reply := some doneReply
        events := [NotionCall.update "t1" (some "Done") (some 100) none none,
          NotionCall.appendLog "t1" "TS | Alice: A done"] } :=
  (inbound_applied (some "A done") ⟨"m1", "Alice"⟩
    [⟨"t1", "Write report", some "In Progress", some 20, none⟩]
    ⟨some (some "t1"), some (some "Done"), some (some 100), none, none,
      some (some 1), some none⟩
    "2025-W01" "TS" "t1" (by decide) rfl (by decide) (Or.inl rfl) rfl
    (by decide)).trans rfl

/-- Claim C1 counterexample: a decision with confidence 1, no follow-up and
the non-null but empty task id `""` does not reach the applied state — the
handler performs zero mutation calls and sends the couldn't-match reply. -/
theorem inbound_empty_taskid_clarifies :
    (aiSanitize ⟨some (some ""), none, none, none, none, some (some 1),
      some none⟩).task_id = some "" ∧
    twilio_inbound ⟨some "done", some ⟨"m1", "Alice"⟩, [⟨"t1", "T", none, none, none⟩],
      Except.ok ⟨some (some ""), none, none, none, none, some (some 1), some none⟩,
      "2025-W01", "TS"⟩ =
      { reply := some couldntMatchReply, events := [] } :=
  ⟨rfl, by decide⟩

/-- Claim C2 (amended): when the decision's confidence is below 0.7 or its
follow-up question is non-empty, the handler reaches the clarify state: it
performs zero mutation calls and replies with the model-supplied follow-up
when that is present and non-empty, else with the fixed default listing
letter options. -/
theorem inbound_clarify (b : Option String) (m : Member) (tasks : List TaskRec)
    (raw : RawParsed) (week now : String)
    (hbody : pyStrip (b.getD "") ≠ "")
    (htasks : tasks.isEmpty = false)
    (hcl : pyConfidence (aiSanitize raw).confidence < mkRat 7 10 ∨
      pyTruthy (aiSanitize raw).followup = true) :
    twilio_inbound ⟨b, some m, tasks, Except.ok raw, week, now⟩ =
      { reply := some (pyOrStr (aiSanitize raw).followup defaultClarifyReply)
        events := [] } := by
  have hcond1 : (decide (pyConfidence (aiSanitize raw).confidence < mkRat 7 10) ||
      pyTruthy (aiSanitize raw).followup) = true := by
    rcases hcl with h | h
    · simp [h]
    · simp [h]
  unfold twilio_inbound
  dsimp only
  rw [if_neg hbody, if_neg (by simp [htasks]), hcond1, if_pos rfl]

/-- Claim C2 witness: a concrete low-confidence decision yields the default
clarifying reply and no mutation. -/
theorem inbound_clarify_witness :
    twilio_inbound ⟨some "hmm", some ⟨"m1", "Alice"⟩, [⟨"t1", "T", none, none, none⟩],
      Except.ok ⟨none, none, none, none, none, some (some (mkRat 3 10)), none⟩,
      "2025-W01", "TS"⟩ =
      { reply := some defaultClarifyReply, events := [] } :=
  (inbound_clarify (some "hmm") ⟨"m1", "Alice"⟩ [⟨"t1", "T", none, none, none⟩]
    ⟨none, none, none, none, none, some (some (mkRat 3 10)), none⟩ "2025-W01" "TS"
    (by decide) rfl (Or.inl (by decide))).trans rfl

/-- Claim C2 counterexample: a decision whose follow-up question is present
but empty (`""`) with confidence 1 and a task id is applied, not clarified —
the handler performs two mutation calls rather than zero. -/
theorem inbound_empty_followup_applies :
    (aiSanitize ⟨some (some "t1"), none, none, none, none, some (some 1),
      some (some "")⟩).followup.isSome = true ∧
    (twilio_inbound ⟨some "done", some ⟨"m1", "Alice"⟩, [⟨"t1", "T", none, none, none⟩],
      Except.ok ⟨some (some "t1"), none, none, none, none, some (some 1), some (some "")⟩,
      "2025-W01", "TS"⟩).events.length = 2 :=
  ⟨rfl, by decide⟩

/-- Claim C3 (amended): on every run that does not end in an uncaught
exception the handler produces exactly one reply; the only exceptional path
is a scoring-step failure, on which no reply is produced and no mutation is
performed. -/
theorem inbound_reply_total (env : InboundEnv) :
    (∃ r, (twilio_inbound env).reply = some r) ∨
    ((twilio_inbound env).reply = none ∧ (twilio_inbound env).events = [] ∧
      env.ai = Except.error ()) := by
  obtain ⟨b, mem, tasks, ai, week, now⟩ := env
  cases mem with
  | none =>
    unfold twilio_inbound
    dsimp only
    by_cases hb : pyStrip (b.getD "") = ""
    · rw [if_pos hb]; exact Or.inl ⟨_, rfl⟩
    · rw [if_neg hb]; exact Or.inl ⟨_, rfl⟩
  | some m =>
    cases ai with
    | error e =>
      cases e
      unfold twilio_inbound
      dsimp only
      by_cases hb : pyStrip (b.getD "") = ""
      · rw [if_pos hb]; exact Or.inl ⟨_, rfl⟩
      · rw [if_neg hb]
        by_cases ht : tasks.isEmpty = true
        · rw [if_pos ht]; exact Or.inl ⟨_, rfl⟩
        · rw [if_neg ht]; exact Or.inr ⟨rfl, rfl, rfl⟩
    | ok raw =>
      unfold twilio_inbound
      dsimp only
      by_cases hb : pyStrip (b.getD "") = ""
      · rw [if_pos hb]; exact Or.inl ⟨_, rfl⟩
      · rw [if_neg hb]
        by_cases ht : tasks.isEmpty = true
        · rw [if_pos ht]; exact Or.inl ⟨_, rfl⟩
        · rw [if_neg ht]
          by_cases hc : (decide (pyConfidence (aiSanitize raw).confidence < mkRat 7 10) ||
              pyTruthy (aiSanitize raw).followup) = true
          · rw [if_pos hc]; exact Or.inl ⟨_, rfl⟩
          · rw [if_neg hc]
            by_cases htid : pyTruthy (aiSanitize raw).task_id = true
            · rw [if_neg (not_not_intro htid)]
              exact Or.inl ⟨_, rfl⟩
            · rw [if_pos htid]
              exact Or.inl ⟨_, rfl⟩

/-- Claim C3 counterexample: when the scoring step fails, the handler sends
no reply at all (the exception propagates as an HTTP error): the sender does
not receive the generic retry-able failure reply the claim requires, though
no mutation is performed. -/
theorem inbound_no_reply_on_interpretation_error :
    twilio_inbound ⟨some "done", some ⟨"m1", "Alice"⟩, [⟨"t1", "T", none, none, none⟩],
      Except.error (), "2025-W01", "TS"⟩ = { reply := none, events := [] } := by
  decide
